import Mathlib

/-!
# AutoClicker: Windows mouse backend

A shallow embedding of `backend/mouse/mouse_windows.go` and
`backend/system/system_windows.go`.

* Go `int` and `uintptr` are the 64-bit types of windows/amd64.  An `int` is an
  `Int` wrapped with `wrapInt64`, a `uintptr` is a `Nat` below `2^64`.
* Every call through a `LazyProc` is a `NativeCall` appended to a trace; what the
  host answers is given by a `Host`, which may depend on all calls made before.
* A function that returns a Go `error` returns an `Outcome`; a run-time panic
  (integer division by zero) is the separate result `Outcome.panicked`.
-/

namespace AutoClicker

/-! ## Machine integers -/

/-- Two's-complement wrap of an integer into the range of Go `int` (64 bits). -/
def wrapInt64 (i : Int) : Int := (i + 2 ^ 63) % 2 ^ 64 - 2 ^ 63

/-- Go conversion `int32(v)`: keeps the low 32 bits, read as a signed value. -/
def toInt32 (i : Int) : Int := (i + 2 ^ 31) % 2 ^ 32 - 2 ^ 31

/-- Go conversion `uintptr(v)` of an `int`: the 64-bit two's-complement word of `v`. -/
def toUintptr (i : Int) : Nat := (i % 2 ^ 64).toNat

/-- Go conversion `int(v)` of a `uintptr`. -/
def uintptrToInt (u : Nat) : Int := wrapInt64 (u : Int)

/-- Go `a / b` on `int`: a run-time panic (`none`) when `b = 0`, otherwise the quotient
truncated toward zero (the one overflowing case `MinInt64 / -1` wraps). -/
def goDiv (a b : Int) : Option Int :=
  if b = 0 then none else some (wrapInt64 (Int.tdiv a b))

/-! ## Windows API constants -/

def INPUT_MOUSE : Nat := 0
def MOUSEEVENTF_LEFTDOWN : Nat := 0x0002
def MOUSEEVENTF_LEFTUP : Nat := 0x0004
def MOUSEEVENTF_RIGHTDOWN : Nat := 0x0008
def MOUSEEVENTF_RIGHTUP : Nat := 0x0010
def MOUSEEVENTF_MIDDLEDOWN : Nat := 0x0020
def MOUSEEVENTF_MIDDLEUP : Nat := 0x0040
def MOUSEEVENTF_ABSOLUTE : Nat := 0x8000

def WM_LBUTTONDOWN : Nat := 0x0201
def WM_LBUTTONUP : Nat := 0x0202
def WM_RBUTTONDOWN : Nat := 0x0204
def WM_RBUTTONUP : Nat := 0x0205
def WM_MBUTTONDOWN : Nat := 0x0207
def WM_MBUTTONUP : Nat := 0x0208

def WindowsAbsoluteCoordMax : Int := 65535

/-! ## Data -/

structure MOUSEINPUT where
  DX : Int
  DY : Int
  MouseData : Nat
  DwFlags : Nat
  Time : Nat
  DwExtraInfo : Nat
  deriving DecidableEq, Repr

/-- The Go struct `INPUT`; its field `Type` is written `Typ` (a reserved word here). -/
structure INPUT where
  Typ : Nat
  Mi : MOUSEINPUT
  deriving DecidableEq, Repr

/-- Modelled from the spec: the declaration of the type MouseButton and of its constants
LeftButton, RightButton and MiddleButton is not part of the three source files.  The spec
gives the enumeration Left, Right, Middle and speaks of unrecognized values; `other v`
stands for any value of the underlying type that is none of the three constants (which
are pairwise distinct, as they are the case labels of one `switch`). -/
inductive MouseButton where
  | LeftButton
  | RightButton
  | MiddleButton
  | other (v : Nat)
  deriving DecidableEq, Repr

/-- The error values the embedded functions can return. -/
inductive GoError where
  /-- the `lastErr` of a `LazyProc.Call`, a Windows error number -/
  | errno (code : Nat)
  /-- `invalid screen dimensions: width=%d, height=%d` -/
  | invalidScreenDimensions (width height : Nat)
  /-- `no target window set for PostMessage (...)` -/
  | noTargetWindowPostMessage
  /-- `no target window set for SendMessage (...)` -/
  | noTargetWindowSendMessage
  /-- `PostMessage failed` -/
  | postMessageFailed
  deriving DecidableEq, Repr

/-- How a function whose last result is a Go `error` ends. -/
inductive Outcome (α : Type) where
  /-- returned with a nil error -/
  | ok (v : α)
  /-- returned a non-nil error -/
  | error (e : GoError)
  /-- did not return: run-time panic -/
  | panicked
  deriving DecidableEq, Repr

/-! ## The host: native entry points of user32.dll -/

/-- One call through a `LazyProc`, with its arguments.  For `SendInput` the pointer to the
array (and the element size) is represented by the array's contents. -/
inductive NativeCall where
  | GetSystemMetrics (nIndex : Nat)
  | SetCursorPos (x y : Nat)
  | SendInput (cInputs : Nat) (inputs : List INPUT)
  | PostMessageW (hwnd msg wParam lParam : Nat)
  | SendMessageW (hwnd msg wParam lParam : Nat)
  deriving DecidableEq, Repr

/-- What `LazyProc.Call` hands back: the primary return value `r1` and `lastErr`, where
`none` is the nil `error`.  (The x/sys/windows library documents `lastErr` as never nil:
a successful call yields `some 0`.  The embedding keeps both cases, as the source tests
`err != nil`.) -/
structure CallResult where
  r1 : Nat
  lastErr : Option Nat
  deriving DecidableEq, Repr

/-- The host answers a call knowing the calls made before it. -/
abbrev Host := List NativeCall → NativeCall → CallResult

/-- `proc.Call(args...)`: ask the host and record the call.  `r1` is a `uintptr`. -/
def call (host : Host) (tr : List NativeCall) (c : NativeCall) :
    CallResult × List NativeCall :=
  (CallResult.mk ((host tr c).r1 % 2 ^ 64) (host tr c).lastErr, tr ++ [c])

/-! ## backend/system/system_windows.go -/

def GetScreenDimensions (host : Host) (tr : List NativeCall) :
    Outcome (Int × Int) × List NativeCall :=
  let rw := call host tr (NativeCall.GetSystemMetrics 0)
  let rh := call host rw.2 (NativeCall.GetSystemMetrics 1)
  let width := rw.1.r1
  let height := rh.1.r1
  if width = 0 ∨ height = 0 then
    (Outcome.error (GoError.invalidScreenDimensions width height), rh.2)
  else
    (Outcome.ok (uintptrToInt width, uintptrToInt height), rh.2)

/-! ## backend/mouse/mouse_windows.go -/

def convertScreenCoordinatesToAbsoluteCoordinates (host : Host) (tr : List NativeCall)
    (x y : Int) : Outcome (Int × Int) × List NativeCall :=
  match GetScreenDimensions host tr with
  | (Outcome.error e, tr1) => (Outcome.error e, tr1)
  | (Outcome.panicked, tr1) => (Outcome.panicked, tr1)
  | (Outcome.ok (width, height), tr1) =>
    match goDiv (wrapInt64 (x * WindowsAbsoluteCoordMax)) width with
    | none => (Outcome.panicked, tr1)
    | some qx =>
      match goDiv (wrapInt64 (y * WindowsAbsoluteCoordMax)) height with
      | none => (Outcome.panicked, tr1)
      | some qy => (Outcome.ok (toInt32 qx, toInt32 qy), tr1)

def getInputFlags (button : MouseButton) : Nat × Nat :=
  match button with
  | MouseButton.LeftButton => (MOUSEEVENTF_LEFTDOWN, MOUSEEVENTF_LEFTUP)
  | MouseButton.RightButton => (MOUSEEVENTF_RIGHTDOWN, MOUSEEVENTF_RIGHTUP)
  | MouseButton.MiddleButton => (MOUSEEVENTF_MIDDLEDOWN, MOUSEEVENTF_MIDDLEUP)
  | _ => (MOUSEEVENTF_LEFTDOWN, MOUSEEVENTF_LEFTUP)

def getMessageCodes (button : MouseButton) : Nat × Nat :=
  match button with
  | MouseButton.LeftButton => (WM_LBUTTONDOWN, WM_LBUTTONUP)
  | MouseButton.RightButton => (WM_RBUTTONDOWN, WM_RBUTTONUP)
  | MouseButton.MiddleButton => (WM_MBUTTONDOWN, WM_MBUTTONUP)
  | _ => (WM_LBUTTONDOWN, WM_LBUTTONUP)

def sendInput (host : Host) (tr : List NativeCall) (x y : Int) (button : MouseButton)
    (moveCursor : Bool) : Outcome Unit × List NativeCall :=
  let downFlag := (getInputFlags button).1
  let upFlag := (getInputFlags button).2
  let filled : Outcome (List INPUT) × List NativeCall :=
    if moveCursor then
      let r := call host tr (NativeCall.SetCursorPos (toUintptr x) (toUintptr y))
      match r.1.lastErr with
      | some e => (Outcome.error (GoError.errno e), r.2)
      | none =>
        (Outcome.ok
          [INPUT.mk INPUT_MOUSE (MOUSEINPUT.mk 0 0 0 downFlag 0 0),
           INPUT.mk INPUT_MOUSE (MOUSEINPUT.mk 0 0 0 upFlag 0 0)], r.2)
    else
      match convertScreenCoordinatesToAbsoluteCoordinates host tr x y with
      | (Outcome.error e, tr1) => (Outcome.error e, tr1)
      | (Outcome.panicked, tr1) => (Outcome.panicked, tr1)
      | (Outcome.ok (absX, absY), tr1) =>
        (Outcome.ok
          [INPUT.mk INPUT_MOUSE
             (MOUSEINPUT.mk absX absY 0 (downFlag ||| MOUSEEVENTF_ABSOLUTE) 0 0),
           INPUT.mk INPUT_MOUSE
             (MOUSEINPUT.mk absX absY 0 (upFlag ||| MOUSEEVENTF_ABSOLUTE) 0 0)], tr1)
  match filled with
  | (Outcome.error e, tr1) => (Outcome.error e, tr1)
  | (Outcome.panicked, tr1) => (Outcome.panicked, tr1)
  | (Outcome.ok inputs, tr1) =>
    let r := call host tr1 (NativeCall.SendInput inputs.length inputs)
    if r.1.r1 = 0 then
      match r.1.lastErr with
      | some e => (Outcome.error (GoError.errno e), r.2)
      | none => (Outcome.ok (), r.2)
    else
      (Outcome.ok (), r.2)

/-- The expression `uintptr(y<<16 | x)`.  Shift and or act on the two's-complement bit
patterns, so they are taken on the 64-bit words of `y` and `x`; the shift drops the bits
that leave the word. -/
def packLParam (x y : Int) : Nat :=
  ((toUintptr y <<< 16) % 2 ^ 64) ||| toUintptr x

def postMessage (host : Host) (tr : List NativeCall) (x y : Int) (button : MouseButton)
    (hwnd : Nat) : Outcome Unit × List NativeCall :=
  if hwnd = 0 then
    (Outcome.error GoError.noTargetWindowPostMessage, tr)
  else
    let downMsg := (getMessageCodes button).1
    let upMsg := (getMessageCodes button).2
    let lParam := packLParam x y
    let r1 := call host tr (NativeCall.PostMessageW hwnd downMsg 1 lParam)
    match r1.1.lastErr with
    | some e => (Outcome.error (GoError.errno e), r1.2)
    | none =>
      let r2 := call host r1.2 (NativeCall.PostMessageW hwnd upMsg 0 lParam)
      match r2.1.lastErr with
      | some e => (Outcome.error (GoError.errno e), r2.2)
      | none =>
        if r1.1.r1 = 0 ∨ r2.1.r1 = 0 then
          (Outcome.error GoError.postMessageFailed, r2.2)
        else
          (Outcome.ok (), r2.2)

def sendMessage (host : Host) (tr : List NativeCall) (x y : Int) (button : MouseButton)
    (hwnd : Nat) : Outcome Unit × List NativeCall :=
  if hwnd = 0 then
    (Outcome.error GoError.noTargetWindowSendMessage, tr)
  else
    let downMsg := (getMessageCodes button).1
    let upMsg := (getMessageCodes button).2
    let lParam := packLParam x y
    let r1 := call host tr (NativeCall.SendMessageW hwnd downMsg 1 lParam)
    match r1.1.lastErr with
    | some e => (Outcome.error (GoError.errno e), r1.2)
    | none =>
      let r2 := call host r1.2 (NativeCall.SendMessageW hwnd upMsg 0 lParam)
      match r2.1.lastErr with
      | some e => (Outcome.error (GoError.errno e), r2.2)
      | none => (Outcome.ok (), r2.2)

/-! ## Concrete hosts -/

/-- A host whose primary display is `w` by `h` and whose other entry points succeed:
they return 1, and `lastErr` is `err`. -/
def displayHost (w h : Nat) (err : Option Nat) : Host := fun _ c =>
  match c with
  | NativeCall.GetSystemMetrics 0 => CallResult.mk w err
  | NativeCall.GetSystemMetrics _ => CallResult.mk h err
  | _ => CallResult.mk 1 err

/-- A host on which the target window is gone: posting a message returns 0 with
`ERROR_INVALID_WINDOW_HANDLE` (1400). -/
def staleWindowHost : Host := fun _ c =>
  match c with
  | NativeCall.PostMessageW _ _ _ _ => CallResult.mk 0 (some 1400)
  | _ => CallResult.mk 1 (some 0)

/-! ## Basic facts about the host interface and the display query -/

theorem call_trace (host : Host) (tr : List NativeCall) (c : NativeCall) :
    (call host tr c).2 = tr ++ [c] := rfl

theorem call_r1_lt (host : Host) (tr : List NativeCall) (c : NativeCall) :
    (call host tr c).1.r1 < 2 ^ 64 :=
  Nat.mod_lt _ (by decide)

theorem uintptrToInt_ne_zero (u : Nat) (h0 : u ≠ 0) (hlt : u < 2 ^ 64) :
    uintptrToInt u ≠ 0 := by
  unfold uintptrToInt wrapInt64
  omega

theorem GetScreenDimensions_trace (host : Host) (tr : List NativeCall) :
    (GetScreenDimensions host tr).2 =
      tr ++ [NativeCall.GetSystemMetrics 0, NativeCall.GetSystemMetrics 1] := by
  unfold GetScreenDimensions
  simp only [call_trace]
  split <;> simp

theorem GetScreenDimensions_ok (host : Host) (tr tr1 : List NativeCall) (W H : Int)
    (h : GetScreenDimensions host tr = (Outcome.ok (W, H), tr1)) :
    W ≠ 0 ∧ H ≠ 0 ∧
      tr1 = tr ++ [NativeCall.GetSystemMetrics 0, NativeCall.GetSystemMetrics 1] := by
  have htr := GetScreenDimensions_trace host tr
  rw [h] at htr
  refine ⟨?_, ?_, htr⟩
  · unfold GetScreenDimensions at h
    simp only [] at h
    split at h
    · simp at h
    · rename_i hz
      simp only [Prod.mk.injEq, Outcome.ok.injEq] at h
      rw [← h.1.1]
      exact uintptrToInt_ne_zero _ (fun h0 => hz (Or.inl h0)) (call_r1_lt _ _ _)
  · unfold GetScreenDimensions at h
    simp only [] at h
    split at h
    · simp at h
    · rename_i hz
      simp only [Prod.mk.injEq, Outcome.ok.injEq] at h
      rw [← h.1.2]
      exact uintptrToInt_ne_zero _ (fun h0 => hz (Or.inr h0)) (call_r1_lt _ _ _)

theorem convert_of_dimensions (host : Host) (tr tr1 : List NativeCall) (W H x y : Int)
    (h : GetScreenDimensions host tr = (Outcome.ok (W, H), tr1)) :
    convertScreenCoordinatesToAbsoluteCoordinates host tr x y =
      (Outcome.ok
        (toInt32 (wrapInt64 (Int.tdiv (wrapInt64 (x * WindowsAbsoluteCoordMax)) W)),
         toInt32 (wrapInt64 (Int.tdiv (wrapInt64 (y * WindowsAbsoluteCoordMax)) H))),
       tr1) := by
  obtain ⟨hW, hH, _⟩ := GetScreenDimensions_ok host tr tr1 W H h
  unfold convertScreenCoordinatesToAbsoluteCoordinates
  rw [h]
  simp [goDiv, hW, hH]

/-! ## Button code tables -/

/-- C7: for every MouseButton value, getInputFlags and getMessageCodes return the
down/up pair of that button (left 0x0002/0x0004 and 0x0201/0x0202, right 0x0008/0x0010
and 0x0204/0x0205, middle 0x0020/0x0040 and 0x0207/0x0208), always with down different
from up, and a value that is none of LeftButton, RightButton, MiddleButton gets exactly
the pair of LeftButton from both tables. -/
theorem button_tables_pairs (button : MouseButton) :
    getInputFlags MouseButton.LeftButton = (0x0002, 0x0004) ∧
    getInputFlags MouseButton.RightButton = (0x0008, 0x0010) ∧
    getInputFlags MouseButton.MiddleButton = (0x0020, 0x0040) ∧
    getMessageCodes MouseButton.LeftButton = (0x0201, 0x0202) ∧
    getMessageCodes MouseButton.RightButton = (0x0204, 0x0205) ∧
    getMessageCodes MouseButton.MiddleButton = (0x0207, 0x0208) ∧
    (getInputFlags button).1 ≠ (getInputFlags button).2 ∧
    (getMessageCodes button).1 ≠ (getMessageCodes button).2 ∧
    (button ≠ MouseButton.LeftButton → button ≠ MouseButton.RightButton →
      button ≠ MouseButton.MiddleButton →
      getInputFlags button = getInputFlags MouseButton.LeftButton ∧
      getMessageCodes button = getMessageCodes MouseButton.LeftButton) := by
  refine ⟨rfl, rfl, rfl, rfl, rfl, rfl, ?_, ?_, ?_⟩
  · cases button <;> simp [getInputFlags, MOUSEEVENTF_LEFTDOWN, MOUSEEVENTF_LEFTUP,
      MOUSEEVENTF_RIGHTDOWN, MOUSEEVENTF_RIGHTUP, MOUSEEVENTF_MIDDLEDOWN, MOUSEEVENTF_MIDDLEUP]
  · cases button <;> simp [getMessageCodes, WM_LBUTTONDOWN, WM_LBUTTONUP, WM_RBUTTONDOWN,
      WM_RBUTTONUP, WM_MBUTTONDOWN, WM_MBUTTONUP]
  · intro hl hr hm
    cases button with
    | LeftButton => exact absurd rfl hl
    | RightButton => exact absurd rfl hr
    | MiddleButton => exact absurd rfl hm
    | other v => exact ⟨rfl, rfl⟩

theorem button_tables_pairs_witness :
    MouseButton.other 7 ≠ MouseButton.LeftButton ∧
    getInputFlags (MouseButton.other 7) = (0x0002, 0x0004) ∧
    getMessageCodes (MouseButton.other 7) = (0x0201, 0x0202) :=
  ⟨by decide,
   (button_tables_pairs (MouseButton.other 7)).2.2.2.2.2.2.2.2
     (by decide) (by decide) (by decide)⟩

/-! ## Message strategies without a target window -/

/-- C5: with hwnd = 0, postMessage and sendMessage return their no-target-window error
for every location and button, and the trace of native calls is left as it was: neither
PostMessageW nor SendMessageW (nor any other entry point) is called. -/
theorem no_target_window_no_dispatch (host : Host) (tr : List NativeCall) (x y : Int)
    (button : MouseButton) :
    postMessage host tr x y button 0 =
      (Outcome.error GoError.noTargetWindowPostMessage, tr) ∧
    sendMessage host tr x y button 0 =
      (Outcome.error GoError.noTargetWindowSendMessage, tr) := by
  constructor
  · simp [postMessage]
  · simp [sendMessage]

/-! ## SendInput with absolute coordinates -/

/-- C2: when the display query succeeds (both dimensions non-zero), sendInput with
moveCursor = false makes, after the two GetSystemMetrics calls of the coordinate
conversion, exactly one SendInput call with a batch of two mouse events: the down event
first, the up event second, both with (DX, DY) equal to the result of
convertScreenCoordinatesToAbsoluteCoordinates(x, y) and with flags
getInputFlags(button) down resp. up or-ed with MOUSEEVENTF_ABSOLUTE; SetCursorPos is not
called.  For (100, 200), RightButton and a 1920 by 1080 display the events carry
(3413, 12136) with flags 0x8008 then 0x8010. -/
theorem sendInput_absolute_batch (host : Host) (tr tr1 : List NativeCall) (x y W H : Int)
    (button : MouseButton)
    (hdim : GetScreenDimensions host tr = (Outcome.ok (W, H), tr1)) :
    (∃ absX absY : Int,
      convertScreenCoordinatesToAbsoluteCoordinates host tr x y =
        (Outcome.ok (absX, absY), tr1) ∧
      (sendInput host tr x y button false).2 =
        tr ++ [NativeCall.GetSystemMetrics 0, NativeCall.GetSystemMetrics 1,
          NativeCall.SendInput 2
            [INPUT.mk INPUT_MOUSE (MOUSEINPUT.mk absX absY 0
               ((getInputFlags button).1 ||| MOUSEEVENTF_ABSOLUTE) 0 0),
             INPUT.mk INPUT_MOUSE (MOUSEINPUT.mk absX absY 0
               ((getInputFlags button).2 ||| MOUSEEVENTF_ABSOLUTE) 0 0)]]) ∧
    (∀ a b : Nat, NativeCall.SetCursorPos a b ∉
      List.drop tr.length (sendInput host tr x y button false).2) ∧
    (sendInput (displayHost 1920 1080 (some 0)) [] 100 200 MouseButton.RightButton false).2 =
      [NativeCall.GetSystemMetrics 0, NativeCall.GetSystemMetrics 1,
        NativeCall.SendInput 2
          [INPUT.mk 0 (MOUSEINPUT.mk 3413 12136 0 0x8008 0 0),
           INPUT.mk 0 (MOUSEINPUT.mk 3413 12136 0 0x8010 0 0)]] := by
  obtain ⟨_, _, htr⟩ := GetScreenDimensions_ok host tr tr1 W H hdim
  have hc := convert_of_dimensions host tr tr1 W H x y hdim
  have hs : (sendInput host tr x y button false).2 =
      tr ++ [NativeCall.GetSystemMetrics 0, NativeCall.GetSystemMetrics 1,
        NativeCall.SendInput 2
          [INPUT.mk INPUT_MOUSE (MOUSEINPUT.mk
             (toInt32 (wrapInt64 (Int.tdiv (wrapInt64 (x * WindowsAbsoluteCoordMax)) W)))
             (toInt32 (wrapInt64 (Int.tdiv (wrapInt64 (y * WindowsAbsoluteCoordMax)) H)))
             0 ((getInputFlags button).1 ||| MOUSEEVENTF_ABSOLUTE) 0 0),
           INPUT.mk INPUT_MOUSE (MOUSEINPUT.mk
             (toInt32 (wrapInt64 (Int.tdiv (wrapInt64 (x * WindowsAbsoluteCoordMax)) W)))
             (toInt32 (wrapInt64 (Int.tdiv (wrapInt64 (y * WindowsAbsoluteCoordMax)) H)))
             0 ((getInputFlags button).2 ||| MOUSEEVENTF_ABSOLUTE) 0 0)]] := by
    unfold sendInput
    simp only [hc, Bool.false_eq_true, if_false, call_trace, htr, List.length_cons,
      List.length_nil]
    split <;> [split; skip] <;> simp
  refine ⟨⟨_, _, hc, hs⟩, ?_, by decide⟩
  intro a b
  rw [hs]
  simp

theorem sendInput_absolute_batch_witness :
    GetScreenDimensions (displayHost 1920 1080 (some 0)) [] =
      (Outcome.ok (1920, 1080),
        [NativeCall.GetSystemMetrics 0, NativeCall.GetSystemMetrics 1]) ∧
    ∃ absX absY : Int,
      convertScreenCoordinatesToAbsoluteCoordinates (displayHost 1920 1080 (some 0)) []
        100 200 = (Outcome.ok (absX, absY),
          [NativeCall.GetSystemMetrics 0, NativeCall.GetSystemMetrics 1]) ∧
      (sendInput (displayHost 1920 1080 (some 0)) [] 100 200
          MouseButton.RightButton false).2 =
        [] ++ [NativeCall.GetSystemMetrics 0, NativeCall.GetSystemMetrics 1,
          NativeCall.SendInput 2
            [INPUT.mk INPUT_MOUSE (MOUSEINPUT.mk absX absY 0
               ((getInputFlags MouseButton.RightButton).1 ||| MOUSEEVENTF_ABSOLUTE) 0 0),
             INPUT.mk INPUT_MOUSE (MOUSEINPUT.mk absX absY 0
               ((getInputFlags MouseButton.RightButton).2 ||| MOUSEEVENTF_ABSOLUTE) 0 0)]] :=
  ⟨by decide,
   (sendInput_absolute_batch (displayHost 1920 1080 (some 0)) []
     [NativeCall.GetSystemMetrics 0, NativeCall.GetSystemMetrics 1] 100 200 1920 1080
     MouseButton.RightButton (by decide)).1⟩

/-! ## Early returns on `lastErr` -/

/-- Whatever the first PostMessageW returns, a non-nil `lastErr` ends postMessage there:
the error is returned and the button-up message is not posted. -/
theorem postMessage_first_lastErr (host : Host) (tr : List NativeCall) (x y : Int)
    (button : MouseButton) (hwnd e : Nat) (h : hwnd ≠ 0)
    (he : (host tr (NativeCall.PostMessageW hwnd (getMessageCodes button).1 1
      (packLParam x y))).lastErr = some e) :
    postMessage host tr x y button hwnd =
      (Outcome.error (GoError.errno e),
        tr ++ [NativeCall.PostMessageW hwnd (getMessageCodes button).1 1
          (packLParam x y)]) := by
  unfold postMessage
  simp [h, call, he]

/-- Whatever SetCursorPos returns, a non-nil `lastErr` ends sendInput with
moveCursor = true there: the error is returned and SendInput is not called. -/
theorem sendInput_moveCursor_lastErr (host : Host) (tr : List NativeCall) (x y : Int)
    (button : MouseButton) (e : Nat)
    (he : (host tr (NativeCall.SetCursorPos (toUintptr x) (toUintptr y))).lastErr =
      some e) :
    sendInput host tr x y button true =
      (Outcome.error (GoError.errno e),
        tr ++ [NativeCall.SetCursorPos (toUintptr x) (toUintptr y)]) := by
  unfold sendInput
  simp [call, he]

/-- With a nil `lastErr` from SetCursorPos, sendInput with moveCursor = true goes on to
one SendInput call with the down and the up event, both without coordinates and with the
plain button flags. -/
theorem sendInput_moveCursor_nil_lastErr (host : Host) (tr : List NativeCall) (x y : Int)
    (button : MouseButton)
    (he : (host tr (NativeCall.SetCursorPos (toUintptr x) (toUintptr y))).lastErr =
      none) :
    (sendInput host tr x y button true).2 =
      tr ++ [NativeCall.SetCursorPos (toUintptr x) (toUintptr y),
        NativeCall.SendInput 2
          [INPUT.mk INPUT_MOUSE (MOUSEINPUT.mk 0 0 0 (getInputFlags button).1 0 0),
           INPUT.mk INPUT_MOUSE (MOUSEINPUT.mk 0 0 0 (getInputFlags button).2 0 0)]] := by
  unfold sendInput
  simp only [if_true, call, he, List.length_cons, List.length_nil]
  split <;> [split; skip] <;> simp

/-- C4: evaluation of postMessage at the failing inputs.  On a host whose PostMessageW
returns 0 with error 1400 for the button-down message, postMessage returns that error
with a single PostMessageW call in the trace: the button-up message is never posted.  On
a host whose PostMessageW calls succeed (return 1) and leave `lastErr` at 0, as
`LazyProc.Call` does on success, postMessage still returns an error after the first
call. -/
theorem postMessage_returns_after_first_call :
    postMessage staleWindowHost [] 10 20 MouseButton.LeftButton 1 =
      (Outcome.error (GoError.errno 1400), [NativeCall.PostMessageW 1 0x0201 1 1310730]) ∧
    postMessage (displayHost 1920 1080 (some 0)) [] 10 20 MouseButton.LeftButton 1 =
      (Outcome.error (GoError.errno 0), [NativeCall.PostMessageW 1 0x0201 1 1310730]) := by
  decide

/-- C6: evaluation of sendInput with moveCursor = true at the failing input.  On a host
whose SetCursorPos succeeds (returns 1) and leaves `lastErr` at 0, as `LazyProc.Call`
does on success, sendInput returns that `lastErr` as its error and the trace holds the
SetCursorPos call only: SendInput is never called. -/
theorem sendInput_moveCursor_returns_lastErr :
    sendInput (displayHost 1920 1080 (some 0)) [] 100 200 MouseButton.RightButton true =
      (Outcome.error (GoError.errno 0), [NativeCall.SetCursorPos 100 200]) := by
  decide

/-! ## Zero display dimensions -/

theorem GetScreenDimensions_not_panicked (host : Host) (tr tr1 : List NativeCall) :
    GetScreenDimensions host tr ≠ (Outcome.panicked, tr1) := by
  unfold GetScreenDimensions
  simp only []
  split <;> simp

/-- C8: when the host reports a primary display width of 0 or height of 0,
GetScreenDimensions returns the invalid-screen-dimensions error and
convertScreenCoordinatesToAbsoluteCoordinates returns that same error for every (x, y);
the conversion never ends in a division-by-zero panic, because the dimensions it divides
by, those of a successful GetScreenDimensions, are both non-zero. -/
theorem zero_dimension_fails_before_division (host : Host) (tr : List NativeCall) :
    ((call host tr (NativeCall.GetSystemMetrics 0)).1.r1 = 0 ∨
      (call host (tr ++ [NativeCall.GetSystemMetrics 0])
        (NativeCall.GetSystemMetrics 1)).1.r1 = 0 →
      (GetScreenDimensions host tr).1 =
        Outcome.error (GoError.invalidScreenDimensions
          (call host tr (NativeCall.GetSystemMetrics 0)).1.r1
          (call host (tr ++ [NativeCall.GetSystemMetrics 0])
            (NativeCall.GetSystemMetrics 1)).1.r1) ∧
      ∀ x y : Int, (convertScreenCoordinatesToAbsoluteCoordinates host tr x y).1 =
        Outcome.error (GoError.invalidScreenDimensions
          (call host tr (NativeCall.GetSystemMetrics 0)).1.r1
          (call host (tr ++ [NativeCall.GetSystemMetrics 0])
            (NativeCall.GetSystemMetrics 1)).1.r1)) ∧
    (∀ x y : Int,
      (convertScreenCoordinatesToAbsoluteCoordinates host tr x y).1 ≠ Outcome.panicked) ∧
    (∀ (W H : Int) (tr1 : List NativeCall),
      GetScreenDimensions host tr = (Outcome.ok (W, H), tr1) → W ≠ 0 ∧ H ≠ 0) := by
  refine ⟨?_, ?_, ?_⟩
  · intro hzero
    have hG : GetScreenDimensions host tr =
        (Outcome.error (GoError.invalidScreenDimensions
          (call host tr (NativeCall.GetSystemMetrics 0)).1.r1
          (call host (tr ++ [NativeCall.GetSystemMetrics 0])
            (NativeCall.GetSystemMetrics 1)).1.r1),
         tr ++ [NativeCall.GetSystemMetrics 0] ++ [NativeCall.GetSystemMetrics 1]) := by
      unfold GetScreenDimensions
      simp only [call_trace]
      rw [if_pos hzero]
    refine ⟨by rw [hG], ?_⟩
    intro x y
    unfold convertScreenCoordinatesToAbsoluteCoordinates
    rw [hG]
  · intro x y
    rcases hG : GetScreenDimensions host tr with ⟨o, t⟩
    cases o with
    | ok v =>
      obtain ⟨W, H⟩ := v
      rw [convert_of_dimensions host tr t W H x y hG]
      simp
    | error e =>
      unfold convertScreenCoordinatesToAbsoluteCoordinates
      rw [hG]
      simp
    | panicked => exact absurd hG (GetScreenDimensions_not_panicked host tr t)
  · intro W H tr1 h
    obtain ⟨hW, hH, _⟩ := GetScreenDimensions_ok host tr tr1 W H h
    exact ⟨hW, hH⟩

theorem zero_dimension_fails_before_division_witness :
    (call (displayHost 0 1080 (some 0)) [] (NativeCall.GetSystemMetrics 0)).1.r1 = 0 ∧
    (GetScreenDimensions (displayHost 0 1080 (some 0)) []).1 =
      Outcome.error (GoError.invalidScreenDimensions 0 1080) ∧
    (convertScreenCoordinatesToAbsoluteCoordinates (displayHost 0 1080 (some 0)) []
      100 200).1 = Outcome.error (GoError.invalidScreenDimensions 0 1080) :=
  ⟨by decide,
   ((zero_dimension_fails_before_division (displayHost 0 1080 (some 0)) []).1
      (Or.inl (by decide))).1,
   ((zero_dimension_fails_before_division (displayHost 0 1080 (some 0)) []).1
      (Or.inl (by decide))).2 100 200⟩

/-! ## The scaling arithmetic -/

theorem wrapInt64_of_range (i : Int) (h1 : -2 ^ 63 ≤ i) (h2 : i < 2 ^ 63) :
    wrapInt64 i = i := by
  unfold wrapInt64
  omega

theorem toInt32_of_range (i : Int) (h1 : -2 ^ 31 ≤ i) (h2 : i < 2 ^ 31) :
    toInt32 i = i := by
  unfold toInt32
  omega

/-- One axis of the conversion for a pixel inside a display whose dimension fits a C
`int`: no wrap occurs and the result is the floor quotient, within `[0, 65535)`. -/
theorem scale_in_display (x W : Int) (hW : W ≤ 2147483647) (hx0 : 0 ≤ x) (hxW : x < W) :
    toInt32 (wrapInt64 (Int.tdiv (wrapInt64 (x * WindowsAbsoluteCoordMax)) W)) =
      (x * 65535) / W ∧
    0 ≤ (x * 65535) / W ∧ (x * 65535) / W < 65535 := by
  have hWpos : 0 < W := by omega
  have hp0 : 0 ≤ x * 65535 := by omega
  have hq0 : 0 ≤ (x * 65535) / W := Int.ediv_nonneg hp0 (le_of_lt hWpos)
  have hq1 : (x * 65535) / W < 65535 := Int.ediv_lt_of_lt_mul hWpos (by omega)
  refine ⟨?_, hq0, hq1⟩
  have hw : wrapInt64 (x * WindowsAbsoluteCoordMax) = x * 65535 := by
    unfold WindowsAbsoluteCoordMax
    exact wrapInt64_of_range _ (by omega) (by omega)
  rw [hw, Int.tdiv_eq_ediv hp0 (le_of_lt hWpos),
    wrapInt64_of_range _ (by omega) (by omega), toInt32_of_range _ (by omega) (by omega)]

/-- C1 (amended): for every display size (W, H) reported by GetScreenDimensions (both
are then non-zero) and every screen point (x, y), negative coordinates included, whose
products x * 65535 and y * 65535 fit the 64-bit int and whose quotients fit int32, the
conversion succeeds and returns absX = x * 65535 / W and absY = y * 65535 / H rounded
toward zero, as Go's integer division does.  That is floor(x * 65535 / W) when x >= 0 and
W > 0 (same for y and H). -/
theorem convert_truncates_toward_zero (host : Host) (tr tr1 : List NativeCall)
    (W H x y : Int)
    (hdim : GetScreenDimensions host tr = (Outcome.ok (W, H), tr1))
    (hx : -2 ^ 63 ≤ x * 65535 ∧ x * 65535 < 2 ^ 63)
    (hy : -2 ^ 63 ≤ y * 65535 ∧ y * 65535 < 2 ^ 63)
    (hqx : -2 ^ 31 ≤ Int.tdiv (x * 65535) W ∧ Int.tdiv (x * 65535) W < 2 ^ 31)
    (hqy : -2 ^ 31 ≤ Int.tdiv (y * 65535) H ∧ Int.tdiv (y * 65535) H < 2 ^ 31) :
    convertScreenCoordinatesToAbsoluteCoordinates host tr x y =
      (Outcome.ok (Int.tdiv (x * 65535) W, Int.tdiv (y * 65535) H), tr1) ∧
    (0 ≤ x → 0 < W → Int.tdiv (x * 65535) W = Int.fdiv (x * 65535) W) ∧
    (0 ≤ y → 0 < H → Int.tdiv (y * 65535) H = Int.fdiv (y * 65535) H) := by
  refine ⟨?_, ?_, ?_⟩
  · rw [convert_of_dimensions host tr tr1 W H x y hdim]
    have hwx : wrapInt64 (x * WindowsAbsoluteCoordMax) = x * 65535 := by
      unfold WindowsAbsoluteCoordMax
      exact wrapInt64_of_range _ hx.1 hx.2
    have hwy : wrapInt64 (y * WindowsAbsoluteCoordMax) = y * 65535 := by
      unfold WindowsAbsoluteCoordMax
      exact wrapInt64_of_range _ hy.1 hy.2
    rw [hwx, hwy, wrapInt64_of_range _ (by omega) (by omega),
      wrapInt64_of_range (Int.tdiv (y * 65535) H) (by omega) (by omega),
      toInt32_of_range _ hqx.1 hqx.2, toInt32_of_range _ hqy.1 hqy.2]
  · intro h0 hW
    rw [Int.tdiv_eq_ediv (by omega) (le_of_lt hW), Int.fdiv_eq_ediv _ (le_of_lt hW)]
  · intro h0 hH
    rw [Int.tdiv_eq_ediv (by omega) (le_of_lt hH), Int.fdiv_eq_ediv _ (le_of_lt hH)]

theorem convert_truncates_toward_zero_witness :
    GetScreenDimensions (displayHost 1920 1080 (some 0)) [] =
      (Outcome.ok (1920, 1080),
        [NativeCall.GetSystemMetrics 0, NativeCall.GetSystemMetrics 1]) ∧
    convertScreenCoordinatesToAbsoluteCoordinates (displayHost 1920 1080 (some 0)) []
        (-1) 200 =
      (Outcome.ok (Int.tdiv (-1 * 65535) 1920, Int.tdiv (200 * 65535) 1080),
        [NativeCall.GetSystemMetrics 0, NativeCall.GetSystemMetrics 1]) ∧
    Int.tdiv (-1 * 65535) 1920 = -34 ∧ Int.tdiv (200 * 65535) 1080 = 12136 :=
  ⟨by decide,
   (convert_truncates_toward_zero (displayHost 1920 1080 (some 0)) []
      [NativeCall.GetSystemMetrics 0, NativeCall.GetSystemMetrics 1] 1920 1080 (-1) 200
      (by decide) (by decide) (by decide) (by decide) (by decide)).1,
   by decide, by decide⟩

/-- C1 (counterexample): on a 1920 by 1080 display the point (-1, 0) is converted to
absX = -34, while floor(-1 * 65535 / 1920) = -35. -/
theorem convert_floor_counterexample :
    GetScreenDimensions (displayHost 1920 1080 (some 0)) [] =
      (Outcome.ok (1920, 1080),
        [NativeCall.GetSystemMetrics 0, NativeCall.GetSystemMetrics 1]) ∧
    (convertScreenCoordinatesToAbsoluteCoordinates (displayHost 1920 1080 (some 0)) []
      (-1) 0).1 = Outcome.ok (-34, 0) ∧
    Int.fdiv (-1 * 65535) 1920 = -35 ∧
    (convertScreenCoordinatesToAbsoluteCoordinates (displayHost 1920 1080 (some 0)) []
      (-1) 0).1 ≠ Outcome.ok (Int.fdiv (-1 * 65535) 1920, Int.fdiv (0 * 65535) 1080) := by
  decide

/-- The conversion of a pixel inside a valid display: both axes are floor quotients. -/
theorem convert_in_display (host : Host) (tr tr1 : List NativeCall) (W H x y : Int)
    (hdim : GetScreenDimensions host tr = (Outcome.ok (W, H), tr1))
    (hW : W ≤ 2147483647) (hH : H ≤ 2147483647)
    (hx0 : 0 ≤ x) (hxW : x < W) (hy0 : 0 ≤ y) (hyH : y < H) :
    convertScreenCoordinatesToAbsoluteCoordinates host tr x y =
      (Outcome.ok ((x * 65535) / W, (y * 65535) / H), tr1) := by
  rw [convert_of_dimensions host tr tr1 W H x y hdim,
    (scale_in_display x W hW hx0 hxW).1, (scale_in_display y H hH hy0 hyH).1]

/-- C9: for every valid display size (W, H), a size GetScreenDimensions reports with
both dimensions in the positive range of the C `int` that GetSystemMetrics returns, and
all points with 0 <= x1 <= x2 < W and 0 <= y < H, both conversions succeed and the absX
returned for (x1, y) is at most the absX returned for (x2, y); symmetrically, for
0 <= y1 <= y2 < H and 0 <= x < W the absY returned for (x, y1) is at most the absY
returned for (x, y2). -/
theorem convert_monotone (host : Host) (tr tr1 : List NativeCall) (W H : Int)
    (hdim : GetScreenDimensions host tr = (Outcome.ok (W, H), tr1))
    (hW : W ≤ 2147483647) (hH : H ≤ 2147483647) :
    (∀ x1 x2 y : Int, 0 ≤ x1 → x1 ≤ x2 → x2 < W → 0 ≤ y → y < H →
      ∃ a1 b1 a2 b2 : Int,
        convertScreenCoordinatesToAbsoluteCoordinates host tr x1 y =
          (Outcome.ok (a1, b1), tr1) ∧
        convertScreenCoordinatesToAbsoluteCoordinates host tr x2 y =
          (Outcome.ok (a2, b2), tr1) ∧
        a1 ≤ a2) ∧
    (∀ x y1 y2 : Int, 0 ≤ x → x < W → 0 ≤ y1 → y1 ≤ y2 → y2 < H →
      ∃ a1 b1 a2 b2 : Int,
        convertScreenCoordinatesToAbsoluteCoordinates host tr x y1 =
          (Outcome.ok (a1, b1), tr1) ∧
        convertScreenCoordinatesToAbsoluteCoordinates host tr x y2 =
          (Outcome.ok (a2, b2), tr1) ∧
        b1 ≤ b2) := by
  constructor
  · intro x1 x2 y h0 h12 h2 hy0 hyH
    refine ⟨_, _, _, _,
      convert_in_display host tr tr1 W H x1 y hdim hW hH h0 (by omega) hy0 hyH,
      convert_in_display host tr tr1 W H x2 y hdim hW hH (by omega) h2 hy0 hyH, ?_⟩
    exact Int.ediv_le_ediv (by omega) (by omega)
  · intro x y1 y2 hx0 hxW h0 h12 h2
    refine ⟨_, _, _, _,
      convert_in_display host tr tr1 W H x y1 hdim hW hH hx0 hxW h0 (by omega),
      convert_in_display host tr tr1 W H x y2 hdim hW hH hx0 hxW (by omega) h2, ?_⟩
    exact Int.ediv_le_ediv (by omega) (by omega)

theorem convert_monotone_witness :
    GetScreenDimensions (displayHost 1920 1080 (some 0)) [] =
      (Outcome.ok (1920, 1080),
        [NativeCall.GetSystemMetrics 0, NativeCall.GetSystemMetrics 1]) ∧
    ∃ a1 b1 a2 b2 : Int,
      convertScreenCoordinatesToAbsoluteCoordinates (displayHost 1920 1080 (some 0)) []
        100 200 = (Outcome.ok (a1, b1),
          [NativeCall.GetSystemMetrics 0, NativeCall.GetSystemMetrics 1]) ∧
      convertScreenCoordinatesToAbsoluteCoordinates (displayHost 1920 1080 (some 0)) []
        101 200 = (Outcome.ok (a2, b2),
          [NativeCall.GetSystemMetrics 0, NativeCall.GetSystemMetrics 1]) ∧
      a1 ≤ a2 :=
  ⟨by decide,
   (convert_monotone (displayHost 1920 1080 (some 0)) []
      [NativeCall.GetSystemMetrics 0, NativeCall.GetSystemMetrics 1] 1920 1080
      (by decide) (by decide) (by decide)).1 100 101 200
      (by decide) (by decide) (by decide) (by decide) (by decide)⟩

/-- C10: for every valid display size (W, H), a size GetScreenDimensions reports with
both dimensions in the positive range of the C `int` that GetSystemMetrics returns, and
every point with 0 <= x < W and 0 <= y < H, the conversion succeeds with absX and absY
both within [0, 65535], and they are the quotients x * 65535 / W and y * 65535 / H
themselves: the narrowing conversion to int32 changes nothing. -/
theorem convert_within_range (host : Host) (tr tr1 : List NativeCall) (W H x y : Int)
    (hdim : GetScreenDimensions host tr = (Outcome.ok (W, H), tr1))
    (hW : W ≤ 2147483647) (hH : H ≤ 2147483647)
    (hx0 : 0 ≤ x) (hxW : x < W) (hy0 : 0 ≤ y) (hyH : y < H) :
    ∃ absX absY : Int,
      convertScreenCoordinatesToAbsoluteCoordinates host tr x y =
        (Outcome.ok (absX, absY), tr1) ∧
      0 ≤ absX ∧ absX ≤ 65535 ∧ 0 ≤ absY ∧ absY ≤ 65535 ∧
      absX = (x * 65535) / W ∧ absY = (y * 65535) / H := by
  obtain ⟨_, hx1, hx2⟩ := scale_in_display x W hW hx0 hxW
  obtain ⟨_, hy1, hy2⟩ := scale_in_display y H hH hy0 hyH
  exact ⟨_, _, convert_in_display host tr tr1 W H x y hdim hW hH hx0 hxW hy0 hyH,
    hx1, le_of_lt hx2, hy1, le_of_lt hy2, rfl, rfl⟩

theorem convert_within_range_witness :
    GetScreenDimensions (displayHost 1920 1080 (some 0)) [] =
      (Outcome.ok (1920, 1080),
        [NativeCall.GetSystemMetrics 0, NativeCall.GetSystemMetrics 1]) ∧
    ∃ absX absY : Int,
      convertScreenCoordinatesToAbsoluteCoordinates (displayHost 1920 1080 (some 0)) []
        1919 1079 = (Outcome.ok (absX, absY),
          [NativeCall.GetSystemMetrics 0, NativeCall.GetSystemMetrics 1]) ∧
      0 ≤ absX ∧ absX ≤ 65535 ∧ 0 ≤ absY ∧ absY ≤ 65535 ∧
      absX = (1919 * 65535) / 1920 ∧ absY = (1079 * 65535) / 1080 :=
  ⟨by decide,
   convert_within_range (displayHost 1920 1080 (some 0)) []
      [NativeCall.GetSystemMetrics 0, NativeCall.GetSystemMetrics 1] 1920 1080 1919 1079
      (by decide) (by decide) (by decide) (by decide) (by decide) (by decide) (by decide)⟩

/-! ## The packed coordinate word of the message strategies -/

theorem packLParam_eq (x y : Int) (hx0 : 0 ≤ x) (hx1 : x < 65536) :
    packLParam x y = toUintptr (y * 65536 + x) := by
  unfold packLParam toUintptr
  have hn : (x % 2 ^ 64).toNat < 2 ^ 16 := by omega
  have hs : ((y % 2 ^ 64).toNat <<< 16) % 2 ^ 64 =
      2 ^ 16 * ((y % 2 ^ 64).toNat % 2 ^ 48) := by
    rw [Nat.shiftLeft_eq]
    omega
  rw [hs, ← Nat.mul_add_lt_is_or hn]
  omega

theorem postMessage_trace (host : Host) (tr : List NativeCall) (x y : Int)
    (button : MouseButton) (hwnd : Nat) (h : hwnd ≠ 0) :
    (postMessage host tr x y button hwnd).2 =
      tr ++ [NativeCall.PostMessageW hwnd (getMessageCodes button).1 1 (packLParam x y)] ∨
    (postMessage host tr x y button hwnd).2 =
      tr ++ [NativeCall.PostMessageW hwnd (getMessageCodes button).1 1 (packLParam x y),
        NativeCall.PostMessageW hwnd (getMessageCodes button).2 0 (packLParam x y)] := by
  unfold postMessage
  simp only [h, if_false, call_trace]
  split
  · exact Or.inl rfl
  · right
    split
    · simp
    · split <;> simp

theorem sendMessage_trace (host : Host) (tr : List NativeCall) (x y : Int)
    (button : MouseButton) (hwnd : Nat) (h : hwnd ≠ 0) :
    (sendMessage host tr x y button hwnd).2 =
      tr ++ [NativeCall.SendMessageW hwnd (getMessageCodes button).1 1 (packLParam x y)] ∨
    (sendMessage host tr x y button hwnd).2 =
      tr ++ [NativeCall.SendMessageW hwnd (getMessageCodes button).1 1 (packLParam x y),
        NativeCall.SendMessageW hwnd (getMessageCodes button).2 0 (packLParam x y)] := by
  unfold sendMessage
  simp only [h, if_false, call_trace]
  split
  · exact Or.inl rfl
  · right
    split <;> simp

/-- C3 (amended): for every click location with 0 <= x <= 65535 (y any integer) and
every non-zero target handle, the lParam that postMessage and sendMessage pass with the
down message, and with the up message whenever they get to pass it, is the 64-bit word of
y * 65536 + x: its low 16 bits are x, its next 16 bits are the low 16 bits of y, and it
is the number y * 65536 + x itself when 0 <= y < 2^48; for x = 10, y = 20 it is
1310730. -/
theorem lParam_packs_coordinates (host : Host) (tr : List NativeCall) (x y : Int)
    (button : MouseButton) (hwnd : Nat)
    (hx0 : 0 ≤ x) (hx1 : x < 65536) (hwnd0 : hwnd ≠ 0) :
    ((postMessage host tr x y button hwnd).2 =
        tr ++ [NativeCall.PostMessageW hwnd (getMessageCodes button).1 1
          (toUintptr (y * 65536 + x))] ∨
      (postMessage host tr x y button hwnd).2 =
        tr ++ [NativeCall.PostMessageW hwnd (getMessageCodes button).1 1
            (toUintptr (y * 65536 + x)),
          NativeCall.PostMessageW hwnd (getMessageCodes button).2 0
            (toUintptr (y * 65536 + x))]) ∧
    ((sendMessage host tr x y button hwnd).2 =
        tr ++ [NativeCall.SendMessageW hwnd (getMessageCodes button).1 1
          (toUintptr (y * 65536 + x))] ∨
      (sendMessage host tr x y button hwnd).2 =
        tr ++ [NativeCall.SendMessageW hwnd (getMessageCodes button).1 1
            (toUintptr (y * 65536 + x)),
          NativeCall.SendMessageW hwnd (getMessageCodes button).2 0
            (toUintptr (y * 65536 + x))]) ∧
    toUintptr (y * 65536 + x) % 65536 = x.toNat ∧
    toUintptr (y * 65536 + x) / 65536 % 65536 = (y % 65536).toNat ∧
    (0 ≤ y → y < 2 ^ 48 → (toUintptr (y * 65536 + x) : Int) = y * 65536 + x) ∧
    packLParam 10 20 = 1310730 := by
  have hp := postMessage_trace host tr x y button hwnd hwnd0
  have hs := sendMessage_trace host tr x y button hwnd hwnd0
  rw [packLParam_eq x y hx0 hx1] at hp hs
  refine ⟨hp, hs, ?_, ?_, ?_, by decide⟩
  · unfold toUintptr
    omega
  · unfold toUintptr
    omega
  · intro hy0 hy1
    unfold toUintptr
    omega

theorem lParam_packs_coordinates_witness :
    (postMessage (displayHost 1920 1080 none) [] 10 20 MouseButton.LeftButton 1).2 =
      [NativeCall.PostMessageW 1 0x0201 1 1310730,
       NativeCall.PostMessageW 1 0x0202 0 1310730] ∧
    (toUintptr (20 * 65536 + 10) : Int) = 20 * 65536 + 10 :=
  ⟨by decide,
   (lParam_packs_coordinates (displayHost 1920 1080 none) [] 10 20
      MouseButton.LeftButton 1 (by decide) (by decide) (by decide)).2.2.2.2.1
      (by decide) (by decide)⟩

/-- C3 (counterexample): for the location x = 65536, y = 1 both messages of postMessage
and of sendMessage carry lParam 65536, not 1 * 65536 + 65536 (also on a host that leaves
`lastErr` at 0, where only the down message is passed); for x = -1, y = 20 the word is
18446744073709551615, not 20 * 65536 - 1. -/
theorem lParam_counterexample :
    postMessage (displayHost 1920 1080 none) [] 65536 1 MouseButton.LeftButton 1 =
      (Outcome.ok (), [NativeCall.PostMessageW 1 0x0201 1 65536,
        NativeCall.PostMessageW 1 0x0202 0 65536]) ∧
    sendMessage (displayHost 1920 1080 none) [] 65536 1 MouseButton.LeftButton 1 =
      (Outcome.ok (), [NativeCall.SendMessageW 1 0x0201 1 65536,
        NativeCall.SendMessageW 1 0x0202 0 65536]) ∧
    (postMessage (displayHost 1920 1080 (some 0)) [] 65536 1 MouseButton.LeftButton 1).2 =
      [NativeCall.PostMessageW 1 0x0201 1 65536] ∧
    (65536 : Int) ≠ 1 * 65536 + 65536 ∧
    (postMessage (displayHost 1920 1080 none) [] (-1) 20 MouseButton.LeftButton 1).2 =
      [NativeCall.PostMessageW 1 0x0201 1 18446744073709551615,
        NativeCall.PostMessageW 1 0x0202 0 18446744073709551615] ∧
    (18446744073709551615 : Int) ≠ 20 * 65536 + -1 := by
  decide

end AutoClicker
